/-
Verification of the DietPlanner Telegram bot against its specification.

The development shallowly embeds the relevant parts of the repository:
the SQLite tables become Lean lists of rows, the CRUD helpers of
`database.py` become pure functions on an explicit `DB` state, and the
meal-plan generator of `meal_planner.py` becomes a pure function whose
use of `random.choice` is modelled by an explicit index source
`rng : Nat → Nat` (slot index ↦ chosen index).  REAL columns are
modelled by `ℚ`, INTEGER columns by `Nat`/`Int`, TEXT columns by
`String`, and `CURRENT_TIMESTAMP` by an abstract `Nat` clock.
-/
import Mathlib

namespace DietPlanner

/-- A row of the `recipes` table (schema in `database.py`).
`is_favorite` is an SQLite integer (BOOLEAN DEFAULT 0), kept as `Int`
because `toggle_favorite_recipe` computes `1 - is_favorite` with integer
arithmetic.  `creation_date` is an abstract timestamp. -/
structure Recipe where
  id : Nat
  user_id : Nat
  name : String
  ingredients : String
  instructions : String
  calories : ℚ
  protein : ℚ
  fat : ℚ
  carbs : ℚ
  photo_path : String
  creation_date : Nat
  is_favorite : Int
deriving DecidableEq, Repr

/-- A row of the `food_entries` table.  `entry_time` models the
`CURRENT_TIMESTAMP` default used by `ORDER BY entry_time`. -/
structure FoodEntry where
  id : Nat
  user_id : Nat
  date : String
  meal_type : String
  food_name : String
  calories : ℚ
  protein : ℚ
  fat : ℚ
  carbs : ℚ
  entry_time : Nat
deriving DecidableEq, Repr

/-- A row of the `meal_plan` table. -/
structure MealPlanRow where
  id : Nat
  user_id : Nat
  date : String
  meal_type : String
  recipe_id : Nat
deriving DecidableEq, Repr

/-- A row of the `shopping_cart` table. -/
structure CartItem where
  id : Nat
  user_id : Nat
  product_name : String
  quantity : ℚ
  unit : String
  period : String
  is_purchased : Bool
  src : String
deriving DecidableEq, Repr

/-- The whole database state: one list per table touched by the claims,
plus the AUTOINCREMENT counters and the clock. -/
structure DB where
  food_entries : List FoodEntry
  recipes : List Recipe
  meal_plan : List MealPlanRow
  shopping_cart : List CartItem
  next_entry_id : Nat
  next_cart_id : Nat
  now : Nat
deriving Repr

/-! ## The daily meal-plan generator (`meal_planner.py`, `generate_daily_meal_plan`)

The source builds `meal_distribution = {"Завтрак": 0.25, "Обед": 0.35,
"Ужин": 0.30, "Перекус": 0.10}`, and for each slot filters the saved
recipes to those within ±20 % of `goal_calories * percentage`, falling
back to the single recipe nearest by absolute calorie difference, then
takes `random.choice` of the candidates.  `random.choice` is modelled by
an arbitrary index reduced modulo the candidate count; the goal macros
`goal_protein`, `goal_fat`, `goal_carbs` are read by the source into
local variables but never used, and are kept here as (unused) arguments
so that this fact is statable. -/

/-- `meal_distribution` of `generate_daily_meal_plan`: the calorie share
of each of the four slots. -/
def meal_distribution : List (String × ℚ) :=
  [("Завтрак", 25/100), ("Обед", 35/100), ("Ужин", 30/100), ("Перекус", 10/100)]

/-- The ±20 % calorie window `target_calories * 0.8 <= r['calories'] <=
target_calories * 1.2` of `generate_daily_meal_plan`. -/
def calorie_window (target_calories : ℚ) (r : Recipe) : Bool :=
  decide (target_calories * (8/10) ≤ r.calories ∧ r.calories ≤ target_calories * (12/10))

/-- The per-slot candidate computation of `generate_daily_meal_plan`:
recipes within ±20 % of the slot's target calories, else the single
nearest recipe by absolute calorie difference (Python's `sorted` is
stable, as is `List.insertionSort`). -/
def suitable_recipes (recipes : List Recipe) (target_calories : ℚ) : List Recipe :=
  if (recipes.filter (calorie_window target_calories)).isEmpty then
    (recipes.insertionSort
      (fun a b => |a.calories - target_calories| ≤ |b.calories - target_calories|)).take 1
  else recipes.filter (calorie_window target_calories)

/-- `random.choice(cands)` with the randomness made explicit: index `k`
is reduced modulo the number of candidates; `none` exactly when the
candidate list is empty (the source guards this with
`if suitable_recipes:`). -/
def choose_recipe (cands : List Recipe) (k : Nat) : Option Recipe :=
  cands[k % cands.length]?

/-- One iteration of the slot loop of `generate_daily_meal_plan`. -/
def plan_slot (recipes : List Recipe) (goal_calories : ℚ) (k : Nat)
    (meal_type : String) (percentage : ℚ) : Option (String × Recipe) :=
  (choose_recipe (suitable_recipes recipes (goal_calories * percentage)) k).map
    (fun r => (meal_type, r))

/-- The pure core of `generate_daily_meal_plan`: the generated plan as a
list of (meal type, chosen recipe) pairs.  When the user has no saved
recipes the source returns early with an empty plan.  `goal_protein`,
`goal_fat` and `goal_carbs` are bound by the source but never used. -/
def generate_daily_meal_plan (recipes : List Recipe)
    (goal_calories goal_protein goal_fat goal_carbs : ℚ)
    (rng : Nat → Nat) : List (String × Recipe) :=
  if recipes.isEmpty then []
  else
    meal_distribution.enum.filterMap
      (fun x => plan_slot recipes goal_calories (rng x.1) x.2.1 x.2.2)

/-! ## Database CRUD helpers (`database.py`)

Each helper opens a connection, runs one SQL statement and closes the
connection; the statements are embedded as pure functions on `DB`.
The broad `try/except` wrappers are modelled separately (see the
`run_*` functions): the pure function is the success branch, the
documented default the exception branch. -/

/-- The WHERE clause `user_id = ? AND date = ?` of the food-diary reads. -/
def food_entry_matches (u : Nat) (d : String) (e : FoodEntry) : Bool :=
  decide (e.user_id = u ∧ e.date = d)

/-- `add_food_entry`: INSERT of one row (fresh AUTOINCREMENT id, an
`entry_time` from the clock); returns the new row id
(`last_insert_rowid`). -/
def add_food_entry (db : DB) (u : Nat) (d mt fn : String)
    (cal prot fat carbs : ℚ) : DB × Nat :=
  let row : FoodEntry := ⟨db.next_entry_id, u, d, mt, fn, cal, prot, fat, carbs, db.now⟩
  ({ db with food_entries := db.food_entries ++ [row],
             next_entry_id := db.next_entry_id + 1 },
   db.next_entry_id)

/-- `get_daily_entries`: SELECT * WHERE user&date ORDER BY entry_time. -/
def get_daily_entries (db : DB) (u : Nat) (d : String) : List FoodEntry :=
  (db.food_entries.filter (food_entry_matches u d)).insertionSort
    (fun a b => a.entry_time ≤ b.entry_time)

/-- The dictionary returned by `get_daily_totals`. -/
structure DailyTotals where
  total_calories : ℚ
  total_protein : ℚ
  total_fat : ℚ
  total_carbs : ℚ
deriving DecidableEq, Repr

/-- `get_daily_totals`: `SELECT COALESCE(SUM(calories),0), ... WHERE
user_id = ? AND date = ?` (SQL `SUM` over the matching rows; `COALESCE`
makes the empty sum 0, as does `List.sum`). -/
def get_daily_totals (db : DB) (u : Nat) (d : String) : DailyTotals :=
  let rows := db.food_entries.filter (food_entry_matches u d)
  ⟨(rows.map FoodEntry.calories).sum, (rows.map FoodEntry.protein).sum,
   (rows.map FoodEntry.fat).sum, (rows.map FoodEntry.carbs).sum⟩

/-- `get_saved_recipes` (default `is_favorite=None` branch):
SELECT * WHERE user_id = ? ORDER BY is_favorite DESC, creation_date DESC. -/
def get_saved_recipes (db : DB) (u : Nat) : List Recipe :=
  (db.recipes.filter (fun r => decide (r.user_id = u))).insertionSort
    (fun a b => b.is_favorite < a.is_favorite ∨
      (a.is_favorite = b.is_favorite ∧ b.creation_date ≤ a.creation_date))

/-- The CASE expression ordering meal types in `get_daily_meal_plan`. -/
def meal_type_order (mt : String) : Nat :=
  if mt = "Завтрак" then 1 else if mt = "Обед" then 2
  else if mt = "Ужин" then 3 else if mt = "Перекус" then 4 else 5

/-- A row of the SELECT of `get_daily_meal_plan` (meal_plan JOIN recipes). -/
structure MealPlanView where
  id : Nat
  meal_type : String
  name : String
  calories : ℚ
  protein : ℚ
  fat : ℚ
  carbs : ℚ
deriving DecidableEq, Repr

/-- `get_daily_meal_plan`: JOIN meal_plan with recipes on recipe_id,
WHERE user&date, ORDER BY the meal-type CASE. -/
def get_daily_meal_plan (db : DB) (u : Nat) (d : String) : List MealPlanView :=
  ((db.meal_plan.filter (fun mp => decide (mp.user_id = u ∧ mp.date = d))).flatMap
    (fun mp => (db.recipes.filter (fun r => decide (r.id = mp.recipe_id))).map
      (fun r => ⟨mp.id, mp.meal_type, r.name, r.calories, r.protein, r.fat, r.carbs⟩))).insertionSort
    (fun a b => meal_type_order a.meal_type ≤ meal_type_order b.meal_type)

/-- `toggle_favorite_recipe`: fetch the first row with the given id,
invert its flag with `1 - is_favorite`, UPDATE every row with that id,
and return `bool(new_status)`; `False` when the id is absent. -/
def toggle_favorite_recipe (db : DB) (rid : Nat) : DB × Bool :=
  match db.recipes.find? (fun r => decide (r.id = rid)) with
  | none => (db, false)
  | some cur =>
      let new_status : Int := 1 - cur.is_favorite
      ({ db with recipes := db.recipes.map (fun r =>
          if r.id = rid then { r with is_favorite := new_status } else r) },
       decide (new_status ≠ 0))

/-- `delete_recipe`: DELETE the meal_plan rows referencing the recipe,
then the recipe itself; returns True. -/
def delete_recipe (db : DB) (rid : Nat) : DB × Bool :=
  ({ db with meal_plan := db.meal_plan.filter (fun mp => decide (mp.recipe_id ≠ rid)),
             recipes := db.recipes.filter (fun r => decide (r.id ≠ rid)) },
   true)

/-- The lookup `WHERE user_id = ? AND product_name = ? AND unit = ?`
of `add_shopping_cart_item`. -/
def cart_match (u : Nat) (pname unit : String) (it : CartItem) : Bool :=
  decide (it.user_id = u ∧ it.product_name = pname ∧ it.unit = unit)

/-- The (user, product name, unit) key of a shopping-cart row. -/
def cart_key (it : CartItem) : Nat × String × String :=
  (it.user_id, it.product_name, it.unit)

/-- `add_shopping_cart_item`: if a row with the same (user, name, unit)
exists, UPDATE that row (by its id) adding the quantity and replacing
period/source, else INSERT one new row. -/
def add_shopping_cart_item (db : DB) (u : Nat) (pname : String) (qty : ℚ)
    (unit period src : String) : DB × Bool :=
  match db.shopping_cart.find? (cart_match u pname unit) with
  | some existing =>
      ({ db with shopping_cart := db.shopping_cart.map (fun it =>
          if it.id = existing.id then
            { it with quantity := existing.quantity + qty, period := period, src := src }
          else it) },
       true)
  | none =>
      let row : CartItem := ⟨db.next_cart_id, u, pname, qty, unit, period, false, src⟩
      ({ db with shopping_cart := db.shopping_cart ++ [row],
                 next_cart_id := db.next_cart_id + 1 },
       true)

/-! ## The try/except wrappers of the read helpers

`q : Except String Unit` is the outcome of the underlying SQL query:
`.ok` runs the success branch, `.error` is a raised exception, caught by
the broad `except` clause which returns the documented default. -/

/-- `get_daily_entries` with its exception handler. -/
def run_get_daily_entries (db : DB) (u : Nat) (d : String)
    (q : Except String Unit) : List FoodEntry :=
  match q with
  | .ok _ => get_daily_entries db u d
  | .error _ => []

/-- `get_saved_recipes` with its exception handler. -/
def run_get_saved_recipes (db : DB) (u : Nat)
    (q : Except String Unit) : List Recipe :=
  match q with
  | .ok _ => get_saved_recipes db u
  | .error _ => []

/-- `get_daily_meal_plan` with its exception handler. -/
def run_get_daily_meal_plan (db : DB) (u : Nat) (d : String)
    (q : Except String Unit) : List MealPlanView :=
  match q with
  | .ok _ => get_daily_meal_plan db u d
  | .error _ => []

/-- `get_daily_totals` with its exception handler. -/
def run_get_daily_totals (db : DB) (u : Nat) (d : String)
    (q : Except String Unit) : DailyTotals :=
  match q with
  | .ok _ => get_daily_totals db u d
  | .error _ => ⟨0, 0, 0, 0⟩

/-! ## Claims about the database layer -/

/-- C5: for every user and date, the totals returned by
`get_daily_totals` equal the componentwise sums of the corresponding
fields over the list of entries returned by `get_daily_entries` for the
same user and date. -/
theorem get_daily_totals_eq_sum_of_entries (db : DB) (u : Nat) (d : String) :
    get_daily_totals db u d =
      ⟨((get_daily_entries db u d).map FoodEntry.calories).sum,
       ((get_daily_entries db u d).map FoodEntry.protein).sum,
       ((get_daily_entries db u d).map FoodEntry.fat).sum,
       ((get_daily_entries db u d).map FoodEntry.carbs).sum⟩ := by
  unfold get_daily_totals get_daily_entries
  have hperm := List.perm_insertionSort
      (fun (a b : FoodEntry) => a.entry_time ≤ b.entry_time)
      (db.food_entries.filter (food_entry_matches u d))
  simp only [DailyTotals.mk.injEq]
  exact ⟨((hperm.map _).sum_eq).symm, ((hperm.map _).sum_eq).symm,
         ((hperm.map _).sum_eq).symm, ((hperm.map _).sum_eq).symm⟩

/-- C6: after a successful `add_food_entry(user, date, meal_type,
food_name, calories, protein, fat, carbs)`, the list returned by
`get_daily_entries(user, date)` is, up to the entry-time ordering, the
old list plus one entry holding exactly the inserted field values; in
particular the new entry is present and every previously present entry
still is. -/
theorem add_food_entry_roundtrip (db : DB) (u : Nat) (d mt fn : String)
    (cal prot fat carbs : ℚ) :
    List.Perm (get_daily_entries (add_food_entry db u d mt fn cal prot fat carbs).1 u d)
      (get_daily_entries db u d ++
        [⟨db.next_entry_id, u, d, mt, fn, cal, prot, fat, carbs, db.now⟩]) := by
  unfold get_daily_entries add_food_entry
  refine (List.perm_insertionSort _ _).trans ?_
  rw [List.filter_append]
  have hrow : List.filter (food_entry_matches u d)
      [(⟨db.next_entry_id, u, d, mt, fn, cal, prot, fat, carbs, db.now⟩ : FoodEntry)] =
      [⟨db.next_entry_id, u, d, mt, fn, cal, prot, fat, carbs, db.now⟩] := by
    simp [food_entry_matches]
  rw [hrow]
  exact (List.perm_insertionSort _ _).symm.append_right _

/-- C7: when the underlying query raises, the read helpers catch the
exception and return the documented defaults: `get_daily_entries`,
`get_saved_recipes` and `get_daily_meal_plan` the empty list,
`get_daily_totals` a dictionary of four zero totals. -/
theorem read_helpers_default_on_error (db : DB) (u : Nat) (d e : String) :
    run_get_daily_entries db u d (.error e) = [] ∧
    run_get_saved_recipes db u (.error e) = [] ∧
    run_get_daily_meal_plan db u d (.error e) = [] ∧
    run_get_daily_totals db u d (.error e) = ⟨0, 0, 0, 0⟩ :=
  ⟨rfl, rfl, rfl, rfl⟩

/-- C10: after `delete_recipe(recipe_id)` no meal-plan row references
the deleted recipe, meal-plan rows referencing other recipes are still
present, the recipe itself is gone, and other recipes are still
present. -/
theorem delete_recipe_referential_integrity (db : DB) (rid : Nat) :
    (∀ mp ∈ ((delete_recipe db rid).1).meal_plan, mp.recipe_id ≠ rid) ∧
    (∀ mp ∈ db.meal_plan, mp.recipe_id ≠ rid → mp ∈ ((delete_recipe db rid).1).meal_plan) ∧
    (∀ r ∈ ((delete_recipe db rid).1).recipes, r.id ≠ rid) ∧
    (∀ r ∈ db.recipes, r.id ≠ rid → r ∈ ((delete_recipe db rid).1).recipes) := by
  unfold delete_recipe
  refine ⟨?_, ?_, ?_, ?_⟩ <;> intro x hx <;> simp_all [List.mem_filter]

/-! ## Helper lemmas about the generator -/

/-- With a nonempty saved-recipe list every slot has a nonempty
candidate list (the nearest-recipe fallback keeps one recipe). -/
theorem suitable_recipes_ne_nil {rs : List Recipe} (h : rs ≠ []) (t : ℚ) :
    suitable_recipes rs t ≠ [] := by
  unfold suitable_recipes
  by_cases hs : (rs.filter (calorie_window t)).isEmpty
  · rw [if_pos hs]
    have hlen := List.length_insertionSort
      (fun (a b : Recipe) => |a.calories - t| ≤ |b.calories - t|) rs
    cases hsort : rs.insertionSort (fun a b => |a.calories - t| ≤ |b.calories - t|) with
    | nil =>
        rw [hsort] at hlen
        exact absurd (List.length_eq_zero.1 hlen.symm).symm (Ne.symm h)
    | cons a l => simp
  · rw [if_neg hs]
    simpa [List.isEmpty_iff] using hs

/-- `choose_recipe` on a nonempty candidate list always yields a
candidate. -/
theorem choose_recipe_eq_some {l : List Recipe} (h : l ≠ []) (k : Nat) :
    ∃ r, choose_recipe l k = some r ∧ r ∈ l := by
  have hlen : k % l.length < l.length := Nat.mod_lt _ (List.length_pos.2 h)
  exact ⟨l[k % l.length], by simp [choose_recipe], List.getElem_mem _⟩

/-- `filterMap` over functions that never drop an element preserves
positions, so agreement at position `k` transfers. -/
theorem filterMap_getElem?_congr {α β : Type} {f g : α → Option β} :
    ∀ (l : List α) (k : Nat), (∀ x ∈ l, (f x).isSome) → (∀ x ∈ l, (g x).isSome) →
      l[k]?.bind f = l[k]?.bind g →
      (l.filterMap f)[k]? = (l.filterMap g)[k]?
  | [], _, _, _, _ => rfl
  | a :: l, k, hf, hg, hk => by
    obtain ⟨b, hb⟩ := Option.isSome_iff_exists.1 (hf a (List.mem_cons_self a l))
    obtain ⟨c, hc⟩ := Option.isSome_iff_exists.1 (hg a (List.mem_cons_self a l))
    rw [List.filterMap_cons_some hb, List.filterMap_cons_some hc]
    cases k with
    | zero =>
        simp only [List.getElem?_cons_zero, Option.some_bind] at hk ⊢
        rw [hb, hc] at hk
        simpa using hk
    | succ k =>
        simp only [List.getElem?_cons_succ] at hk ⊢
        exact filterMap_getElem?_congr l k (fun x hx => hf x (List.mem_cons_of_mem _ hx))
          (fun x hx => hg x (List.mem_cons_of_mem _ hx)) hk

/-! ## Concrete sample data for the counterexamples and witnesses -/

/-- A saved recipe of user 1 with the given id and calories. -/
def sample_recipe (i : Nat) (c : ℚ) : Recipe :=
  ⟨i, 1, "", "", "", c, 10, 10, 10, "", 0, 0⟩

/-- Two saved recipes: 240 kcal and 260 kcal. -/
def sample_pair : List Recipe := [sample_recipe 1 240, sample_recipe 2 260]

/-- Four pairwise-distinct saved recipes of 290 kcal each. -/
def sample_quad : List Recipe :=
  [sample_recipe 1 290, sample_recipe 2 290, sample_recipe 3 290, sample_recipe 4 290]

/-! ## Claims about the meal-plan generator -/

/-- C1 counterexample: the generated plan does not change when the
daily protein/fat/carb targets change (here from 200/70/250 g to
0/0/0 g); had breakfast been allocated 25 % of the protein target, the
allocated protein would differ (50 g against 0 g), so no share of the
macro targets is allocated to any slot. -/
theorem generate_daily_ignores_macro_goals :
    generate_daily_meal_plan sample_pair 1000 200 70 250 (fun _ => 0) =
      generate_daily_meal_plan sample_pair 1000 0 0 0 (fun _ => 0) := rfl

/-- C1 (amended): the generator allocates to each slot a fixed
percentage share of the daily calorie target only — breakfast 25 %,
lunch 35 %, dinner 30 %, snack 10 % — and its output is independent of
the protein, fat and carb targets, which are read but never used. -/
theorem generate_daily_allocates_calorie_shares_only :
    (∀ (rs : List Recipe) (c p f cb p' f' cb' : ℚ) (rng : Nat → Nat),
      generate_daily_meal_plan rs c p f cb rng =
        generate_daily_meal_plan rs c p' f' cb' rng) ∧
    meal_distribution.map Prod.snd = [25/100, 35/100, 30/100, 10/100] :=
  ⟨fun _ _ _ _ _ _ _ _ _ => rfl, rfl⟩

/-- The candidate set claimed by the spec for C2 (±20 %, then ±40 %,
then nearest by calories), stated in the spec's words for comparison
with the source's `suitable_recipes`. -/
def claimed_candidate_set (recipes : List Recipe) (t : ℚ) : List Recipe :=
  if (recipes.filter (calorie_window t)).isEmpty then
    if (recipes.filter (fun r =>
        decide (t * (6/10) ≤ r.calories ∧ r.calories ≤ t * (14/10)))).isEmpty then
      (recipes.insertionSort (fun a b => |a.calories - t| ≤ |b.calories - t|)).take 1
    else recipes.filter (fun r =>
        decide (t * (6/10) ≤ r.calories ∧ r.calories ≤ t * (14/10)))
  else recipes.filter (calorie_window t)

/-- C2 counterexample: with saved recipes of 135 kcal and 70 kcal and a
breakfast target of `400 * 25% = 100` kcal, the ±20 % window is empty;
the code falls directly back to the single nearest recipe (70 kcal)
while the claimed ±40 % stage would keep both recipes: the code has no
±40 % stage. -/
theorem suitable_recipes_no_forty_percent_stage :
    suitable_recipes [sample_recipe 1 135, sample_recipe 2 70] (400 * (25/100)) ≠
      claimed_candidate_set [sample_recipe 1 135, sample_recipe 2 70] (400 * (25/100)) := by
  with_unfolding_all decide

/-- C2 (amended): the candidate set of a slot is the set of recipes
within ±20 % of the slot's target calories; when that set is empty it
is the single saved recipe nearest to the target by absolute calorie
difference (first in saved order on ties); there is no ±40 % stage. -/
theorem suitable_recipes_characterization (rs : List Recipe) (t : ℚ) (h : rs ≠ []) :
    (rs.filter (calorie_window t) ≠ [] →
      suitable_recipes rs t = rs.filter (calorie_window t)) ∧
    (rs.filter (calorie_window t) = [] →
      ∃ r, suitable_recipes rs t = [r] ∧ r ∈ rs ∧
        ∀ s ∈ rs, |r.calories - t| ≤ |s.calories - t|) := by
  constructor
  · intro hne
    unfold suitable_recipes
    rw [if_neg (by simpa [List.isEmpty_iff] using hne)]
  · intro hemp
    unfold suitable_recipes
    rw [if_pos (by simpa [List.isEmpty_iff] using hemp)]
    haveI : IsTotal Recipe (fun a b => |a.calories - t| ≤ |b.calories - t|) :=
      ⟨fun a b => le_total _ _⟩
    haveI : IsTrans Recipe (fun a b => |a.calories - t| ≤ |b.calories - t|) :=
      ⟨fun a b c hab hbc => le_trans hab hbc⟩
    have hsorted := List.sorted_insertionSort
      (fun (a b : Recipe) => |a.calories - t| ≤ |b.calories - t|) rs
    have hlen := List.length_insertionSort
      (fun (a b : Recipe) => |a.calories - t| ≤ |b.calories - t|) rs
    cases hsort : rs.insertionSort (fun a b => |a.calories - t| ≤ |b.calories - t|) with
    | nil =>
        rw [hsort] at hlen
        exact absurd (List.length_eq_zero.1 hlen.symm).symm (Ne.symm h)
    | cons a l =>
        rw [hsort] at hsorted
        refine ⟨a, by simp, ?_, ?_⟩
        · have ha : a ∈ rs.insertionSort (fun a b => |a.calories - t| ≤ |b.calories - t|) := by
            rw [hsort]
            exact List.mem_cons_self a l
          exact (List.mem_insertionSort _).1 ha
        · intro s hs
          have hmem : s ∈ a :: l := by
            rw [← hsort]
            exact (List.mem_insertionSort _).2 hs
          rcases List.mem_cons.1 hmem with hsa | hmem
          · rw [hsa]
          · exact List.rel_of_sorted_cons hsorted s hmem

/-- C2 witness: the characterization applied to the two sample recipes
and a 250 kcal slot target, where the ±20 % window is nonempty. -/
theorem suitable_recipes_characterization_witness :
    (sample_pair ≠ []) ∧
    ((sample_pair.filter (calorie_window 250) ≠ [] →
      suitable_recipes sample_pair 250 = sample_pair.filter (calorie_window 250)) ∧
    (sample_pair.filter (calorie_window 250) = [] →
      ∃ r, suitable_recipes sample_pair 250 = [r] ∧ r ∈ sample_pair ∧
        ∀ s ∈ sample_pair, |r.calories - 250| ≤ |s.calories - 250|)) :=
  ⟨by with_unfolding_all decide,
   suitable_recipes_characterization sample_pair 250 (by with_unfolding_all decide)⟩

/-- C3 counterexample: with the same recipe list and targets the
selection differs between two random sources (`random.choice` picks
index 0 against index 1), so the selection is not a deterministic
function of the recipe list and the targets. -/
theorem generated_selection_not_deterministic :
    generate_daily_meal_plan sample_pair 1000 0 0 0 (fun _ => 0) ≠
      generate_daily_meal_plan sample_pair 1000 0 0 0 (fun _ => 1) := by
  with_unfolding_all decide

/-- C3 (amended): each slot's recipe is chosen by the random source
uniformly from the whole candidate set of that slot (no top-5 ranking,
no weighted deviation score): whatever the random source, the selected
recipe belongs to `suitable_recipes` for the slot's share of the
calorie target. -/
theorem generated_selection_mem_candidates (rs : List Recipe) (c p f cb : ℚ)
    (rng : Nat → Nat) (mt : String) (r : Recipe)
    (h : (mt, r) ∈ generate_daily_meal_plan rs c p f cb rng) :
    ∃ q ∈ meal_distribution, q.1 = mt ∧ r ∈ suitable_recipes rs (c * q.2) := by
  unfold generate_daily_meal_plan at h
  by_cases he : rs.isEmpty
  · simp [he] at h
  · simp only [if_neg he] at h
    obtain ⟨x, hx, hfx⟩ := List.mem_filterMap.1 h
    unfold plan_slot at hfx
    obtain ⟨r', hr', heq⟩ := Option.map_eq_some'.1 hfx
    have hmt : x.2.1 = mt := congrArg Prod.fst heq
    have hr : r' = r := congrArg Prod.snd heq
    have hx2 : x.2 ∈ meal_distribution := by
      have hmap := List.mem_map_of_mem Prod.snd hx
      rwa [List.enum_eq_enumFrom, List.enumFrom_map_snd] at hmap
    refine ⟨x.2, hx2, hmt, ?_⟩
    unfold choose_recipe at hr'
    rw [hr] at hr'
    exact List.getElem?_mem hr'

/-- C3 witness: the 240 kcal sample recipe generated for breakfast is a
member of the breakfast candidate set. -/
theorem generated_selection_mem_candidates_witness :
    ∃ q ∈ meal_distribution, q.1 = "Завтрак" ∧
      sample_recipe 1 240 ∈ suitable_recipes sample_pair (1000 * q.2) :=
  generated_selection_mem_candidates sample_pair 1000 0 0 0 (fun _ => 0)
    "Завтрак" (sample_recipe 1 240) (by with_unfolding_all decide)

/-- C4 counterexample: four pairwise-distinct saved recipes, yet the
generated day plan puts recipe 1 in every slot — chosen recipes are not
removed from the pool, so the four slots need not be distinct. -/
theorem generate_daily_repeats_recipes :
    sample_quad.length = 4 ∧ (sample_quad.map Recipe.id).Nodup ∧
    (generate_daily_meal_plan sample_quad 1000 0 0 0 (fun _ => 0)).map
        (fun x => x.2.id) = [1, 1, 1, 1] ∧
    ¬ ((generate_daily_meal_plan sample_quad 1000 0 0 0 (fun _ => 0)).map
        (fun x => x.2.id)).Nodup := by
  refine ⟨rfl, by decide, by with_unfolding_all decide, by with_unfolding_all decide⟩

/-- C4 (amended): no recipe is removed from the pool between slots:
slot `k` of the generated plan depends only on the random draw for slot
`k`, never on the draws (and hence the chosen recipes) of the other
slots, because every slot selects from the full saved-recipe list. -/
theorem generate_daily_slots_independent (rs : List Recipe) (c p f cb : ℚ)
    (rng rng' : Nat → Nat) (k : Nat) (h : rng k = rng' k) :
    (generate_daily_meal_plan rs c p f cb rng)[k]? =
      (generate_daily_meal_plan rs c p f cb rng')[k]? := by
  unfold generate_daily_meal_plan
  by_cases he : rs.isEmpty
  · simp [he]
  · have hne : rs ≠ [] := by simpa [List.isEmpty_iff] using he
    simp only [if_neg he]
    apply filterMap_getElem?_congr
    · intro x _
      obtain ⟨r, hr, _⟩ := choose_recipe_eq_some (suitable_recipes_ne_nil hne (c * x.2.2)) (rng x.1)
      simp [plan_slot, hr]
    · intro x _
      obtain ⟨r, hr, _⟩ := choose_recipe_eq_some (suitable_recipes_ne_nil hne (c * x.2.2)) (rng' x.1)
      simp [plan_slot, hr]
    · rw [List.enum_eq_enumFrom, List.getElem?_enumFrom]
      cases hx : meal_distribution[k]? with
      | none => rfl
      | some x => simp [Nat.zero_add, h]

/-- C4 witness: slot 1 (lunch) of the plan is unchanged between a
random source and another that agrees with it at slot 1 only. -/
theorem generate_daily_slots_independent_witness :
    (generate_daily_meal_plan sample_pair 1000 0 0 0 (fun _ => 0))[1]? =
      (generate_daily_meal_plan sample_pair 1000 0 0 0
        (fun i => if i = 1 then 0 else 5))[1]? :=
  generate_daily_slots_independent sample_pair 1000 0 0 0 _ _ 1 (by decide)


/-! ## Claims C8 and C9 -/

/-- Unfolding equation of `toggle_favorite_recipe` when the recipe id is
found. -/
theorem toggle_favorite_recipe_found (db : DB) (rid : Nat) (cur : Recipe)
    (hfind : db.recipes.find? (fun r => decide (r.id = rid)) = some cur) :
    toggle_favorite_recipe db rid =
      ({ db with recipes := db.recipes.map (fun r =>
          if r.id = rid then { r with is_favorite := 1 - cur.is_favorite } else r) },
       decide (1 - cur.is_favorite ≠ 0)) := by
  unfold toggle_favorite_recipe
  rw [hfind]

/-- C8: toggling a present recipe id twice restores the recipes table;
a single toggle returns the truthiness of the new flag `1 -
is_favorite`, stores exactly that flag on the recipe while keeping its
other fields, and leaves every other recipe unchanged. -/
theorem toggle_favorite_recipe_spec (db : DB) (rid : Nat) (cur : Recipe)
    (hfind : db.recipes.find? (fun r => decide (r.id = rid)) = some cur)
    (hnodup : (db.recipes.map Recipe.id).Nodup) :
    ((toggle_favorite_recipe (toggle_favorite_recipe db rid).1 rid).1).recipes = db.recipes ∧
    (toggle_favorite_recipe db rid).2 = decide (1 - cur.is_favorite ≠ 0) ∧
    { cur with is_favorite := 1 - cur.is_favorite } ∈ (toggle_favorite_recipe db rid).1.recipes ∧
    (∀ r ∈ db.recipes, r.id ≠ rid → r ∈ (toggle_favorite_recipe db rid).1.recipes) := by
  have hcur_mem : cur ∈ db.recipes := List.mem_of_find?_eq_some hfind
  have hcur_id : cur.id = rid := by simpa using List.find?_some hfind
  have h1 := toggle_favorite_recipe_found db rid cur hfind
  have hfind2 : (db.recipes.map (fun r =>
      if r.id = rid then { r with is_favorite := 1 - cur.is_favorite } else r)).find?
      (fun r => decide (r.id = rid)) =
      some { cur with is_favorite := 1 - cur.is_favorite } := by
    rw [List.find?_map]
    have hpf : ((fun r : Recipe => decide (r.id = rid)) ∘ (fun r =>
        if r.id = rid then { r with is_favorite := 1 - cur.is_favorite } else r)) =
        (fun r : Recipe => decide (r.id = rid)) := by
      funext r
      by_cases hr : r.id = rid <;> simp [hr]
    rw [hpf, hfind]
    simp [hcur_id]
  refine ⟨?_, by rw [h1], ?_, ?_⟩
  · rw [h1]
    rw [toggle_favorite_recipe_found _ rid _ hfind2]
    show (db.recipes.map _).map _ = db.recipes
    rw [List.map_map]
    have hmap : ∀ r ∈ db.recipes,
        ((fun r : Recipe =>
            if r.id = rid then
              { r with is_favorite :=
                  1 - ({ cur with is_favorite := 1 - cur.is_favorite } : Recipe).is_favorite }
            else r) ∘
          (fun r : Recipe =>
            if r.id = rid then { r with is_favorite := 1 - cur.is_favorite } else r)) r = id r := by
      intro r hr
      by_cases hid : r.id = rid
      · have hrc : r = cur :=
          List.inj_on_of_nodup_map hnodup hr hcur_mem (by rw [hid, hcur_id])
        subst hrc
        simp [hid, sub_sub_cancel]
        rw [← hid]
      · simp [Function.comp_apply, hid]
    exact (List.map_eq_map_iff.2 hmap).trans (List.map_id _)
  · rw [h1]
    have himg : (fun r : Recipe =>
        if r.id = rid then { r with is_favorite := 1 - cur.is_favorite } else r) cur =
        { cur with is_favorite := 1 - cur.is_favorite } := by
      simp [hcur_id]
    exact himg ▸ List.mem_map_of_mem _ hcur_mem
  · intro r hr hne
    rw [h1]
    have himg : (fun r : Recipe =>
        if r.id = rid then { r with is_favorite := 1 - cur.is_favorite } else r) r = r := by
      simp [hne]
    exact himg ▸ List.mem_map_of_mem _ hr

/-- C9: `add_shopping_cart_item` preserves the at-most-one-row-per
(user, product name, unit) invariant; on an existing key it keeps the
row count and bumps that row's quantity by the given amount, on a new
key it appends exactly one row. -/
theorem add_shopping_cart_item_spec (db : DB) (u : Nat) (pname : String) (qty : ℚ)
    (unit period src : String)
    (hinv : db.shopping_cart.Pairwise (fun a b => cart_key a ≠ cart_key b)) :
    (((add_shopping_cart_item db u pname qty unit period src).1).shopping_cart.Pairwise
        (fun a b => cart_key a ≠ cart_key b)) ∧
    (∀ ex, db.shopping_cart.find? (cart_match u pname unit) = some ex →
      ((add_shopping_cart_item db u pname qty unit period src).1).shopping_cart.length =
          db.shopping_cart.length ∧
      { ex with quantity := ex.quantity + qty, period := period, src := src } ∈
          ((add_shopping_cart_item db u pname qty unit period src).1).shopping_cart) ∧
    (db.shopping_cart.find? (cart_match u pname unit) = none →
      ((add_shopping_cart_item db u pname qty unit period src).1).shopping_cart.length =
          db.shopping_cart.length + 1 ∧
      (⟨db.next_cart_id, u, pname, qty, unit, period, false, src⟩ : CartItem) ∈
          ((add_shopping_cart_item db u pname qty unit period src).1).shopping_cart) := by
  cases hf : db.shopping_cart.find? (cart_match u pname unit) with
  | some ex =>
      have hupd : add_shopping_cart_item db u pname qty unit period src =
          ({ db with shopping_cart := db.shopping_cart.map (fun it =>
              if it.id = ex.id then
                { it with quantity := ex.quantity + qty, period := period, src := src }
              else it) },
           true) := by
        unfold add_shopping_cart_item
        rw [hf]
      have hex_mem : ex ∈ db.shopping_cart := List.mem_of_find?_eq_some hf
      refine ⟨?_, ?_, ?_⟩
      · rw [hupd]
        exact hinv.map _ (fun a b hab => by
          by_cases ha : a.id = ex.id <;> by_cases hb : b.id = ex.id <;>
            simpa [cart_key, ha, hb] using hab)
      · intro ex' hex'
        obtain rfl : ex = ex' := Option.some.inj hex'
        rw [hupd]
        constructor
        · exact List.length_map _ _
        · have himg : (fun it : CartItem =>
              if it.id = ex.id then
                { it with quantity := ex.quantity + qty, period := period, src := src }
              else it) ex =
              { ex with quantity := ex.quantity + qty, period := period, src := src } := by
            simp
          exact himg ▸ List.mem_map_of_mem _ hex_mem
      · intro hnone
        exact absurd hnone (by simp)
  | none =>
      have hupd : add_shopping_cart_item db u pname qty unit period src =
          ({ db with shopping_cart := db.shopping_cart ++
                        [⟨db.next_cart_id, u, pname, qty, unit, period, false, src⟩],
                     next_cart_id := db.next_cart_id + 1 },
           true) := by
        unfold add_shopping_cart_item
        rw [hf]
      refine ⟨?_, ?_, ?_⟩
      · rw [hupd]
        refine List.pairwise_append.2 ⟨hinv, List.pairwise_singleton _ _, ?_⟩
        intro a ha b hb
        have hb' : b = ⟨db.next_cart_id, u, pname, qty, unit, period, false, src⟩ := by
          simpa using hb
        have hna : ¬ (cart_match u pname unit a = true) := List.find?_eq_none.1 hf a ha
        rw [hb']
        simp only [cart_match, decide_eq_true_eq] at hna
        simp only [cart_key, ne_eq, Prod.mk.injEq, not_and]
        intro h1 h2
        exact fun h3 => hna ⟨h1, h2, h3⟩
      · intro ex' hex'
        exact absurd hex' (by simp)
      · intro _
        rw [hupd]
        constructor
        · simp
        · simp

/-- A small concrete database for the witnesses. -/
def sample_db : DB :=
  { food_entries := [],
    recipes := [sample_recipe 1 250, sample_recipe 2 300],
    meal_plan := [⟨1, 1, "2024-01-01", "Обед", 1⟩, ⟨2, 1, "2024-01-01", "Ужин", 2⟩],
    shopping_cart := [⟨1, 1, "молоко", 2, "л", "manual", false, "manual"⟩],
    next_entry_id := 1, next_cart_id := 2, now := 0 }

/-- C8 witness: toggling recipe 1 of the sample database. -/
theorem toggle_favorite_recipe_spec_witness :
    ((toggle_favorite_recipe (toggle_favorite_recipe sample_db 1).1 1).1).recipes =
        sample_db.recipes ∧
    (toggle_favorite_recipe sample_db 1).2 =
        decide (1 - (sample_recipe 1 250).is_favorite ≠ 0) ∧
    { sample_recipe 1 250 with is_favorite := 1 - (sample_recipe 1 250).is_favorite } ∈
        (toggle_favorite_recipe sample_db 1).1.recipes ∧
    (∀ r ∈ sample_db.recipes, r.id ≠ 1 →
        r ∈ (toggle_favorite_recipe sample_db 1).1.recipes) :=
  toggle_favorite_recipe_spec sample_db 1 (sample_recipe 1 250)
    (by with_unfolding_all decide) (by decide)

/-- C9 witness: adding one litre of milk to a cart already holding two
litres of milk. -/
theorem add_shopping_cart_item_spec_witness :
    (((add_shopping_cart_item sample_db 1 "молоко" 1 "л" "manual" "manual").1).shopping_cart.Pairwise
        (fun a b => cart_key a ≠ cart_key b)) ∧
    (∀ ex, sample_db.shopping_cart.find? (cart_match 1 "молоко" "л") = some ex →
      ((add_shopping_cart_item sample_db 1 "молоко" 1 "л" "manual" "manual").1).shopping_cart.length =
          sample_db.shopping_cart.length ∧
      { ex with quantity := ex.quantity + 1, period := "manual", src := "manual" } ∈
          ((add_shopping_cart_item sample_db 1 "молоко" 1 "л" "manual" "manual").1).shopping_cart) ∧
    (sample_db.shopping_cart.find? (cart_match 1 "молоко" "л") = none →
      ((add_shopping_cart_item sample_db 1 "молоко" 1 "л" "manual" "manual").1).shopping_cart.length =
          sample_db.shopping_cart.length + 1 ∧
      (⟨sample_db.next_cart_id, 1, "молоко", 1, "л", "manual", false, "manual"⟩ : CartItem) ∈
          ((add_shopping_cart_item sample_db 1 "молоко" 1 "л" "manual" "manual").1).shopping_cart) :=
  add_shopping_cart_item_spec sample_db 1 "молоко" 1 "л" "manual" "manual"
    (by with_unfolding_all decide)

/-- C10 witness: deleting recipe 2 keeps the meal-plan row of recipe 1. -/
theorem delete_recipe_referential_integrity_witness :
    (⟨1, 1, "2024-01-01", "Обед", 1⟩ : MealPlanRow) ∈
        ((delete_recipe sample_db 2).1).meal_plan :=
  (delete_recipe_referential_integrity sample_db 2).2.1 ⟨1, 1, "2024-01-01", "Обед", 1⟩
    (by simp [sample_db]) (by decide)

end DietPlanner
